import Mathlib

/-
Verification of the SaaS backend (src/main.py, src/schemas.py): a shallow
embedding of the auth flow (register, login, token issue/decode, the
current-user dependency) and the blog/content endpoints, with theorems for
the documented properties.

Modelling conventions:
- Documents (Python dicts persisted in the document store) are association
  lists `List (String × Value)` with insertion-ordered, unique keys, as in
  Python dicts.
- Timestamps (`datetime.utcnow().timestamp()`, `exp` claims) are `Nat`
  seconds.
- JWTs are modelled as an inductive: either a malformed string or a signed
  claim set together with the key it was signed with; `jwt.decode` succeeds
  exactly when the token is well formed, the key matches, and the expiry
  has not passed (python-jose raises `JWTError`/`ExpiredSignatureError`
  otherwise, both caught by the code's `except JWTError`).
- bcrypt hashing/verification (passlib, an external library) is abstracted
  as function parameters `hashFn`/`verifyFn`.
- Python `str.lower`/`str.strip`/`str.replace(" ", "-")` are modelled over
  the character list for the ASCII inputs the claims use.
-/

namespace Backend

/-- A JSON-ish value stored in a document field. -/
inductive Value where
| str (s : String)
| bool (b : Bool)
| null
| time (t : Nat)
| strlist (xs : List String)
deriving DecidableEq, Repr

/-- A document: a Python dict with string keys, insertion-ordered. -/
abbrev Doc := List (String × Value)

/-- Python `d[k]` lookup as an option (Python `dict.get(k)`): first pair with key `k`. -/
def dget (d : Doc) (k : String) : Option Value :=
(d.find? (fun kv => kv.1 == k)).map (fun kv => kv.2)

/-- Python `d[k] = v`: replace the value at `k` in place if the key exists,
otherwise append the pair at the end. -/
def dset (d : Doc) (k : String) (v : Value) : Doc :=
if (d.find? (fun kv => kv.1 == k)).isSome then
  d.map (fun kv => if kv.1 == k then (k, v) else kv)
else
  d ++ [(k, v)]

/-- Python `d.get(k, default)` when a string is expected. -/
def dgetStrD (d : Doc) (k : String) (dflt : String) : String :=
match dget d k with
| some (Value.str s) => s
| _ => dflt

/-- Modelled from the spec: the document store's `query(collection, filter,
limit)` operation (`get_documents` in `database.py`, which is not under
`src/`). Per the spec it is a generic equality-filtered query with a result
cap: it returns the documents of the collection matching every key/value
pair of the filter, at most `limit` of them. -/
def get_documents (coll : List Doc) (filt : List (String × Value)) (limit : Nat) : List Doc :=
(coll.filter (fun d => filt.all (fun kv => dget d kv.1 == some kv.2))).take limit

/-- Modelled from the spec: the document store's `create(collection, doc)`
operation (`create_document` in `database.py`, which is not under `src/`):
persists the document into the collection. -/
def create_document (coll : List Doc) (d : Doc) : List Doc :=
coll ++ [d]

/-- Constant `ACCESS_TOKEN_EXPIRE_MINUTES = 60 * 24 * 7  # 7 days` (src/main.py). -/
def ACCESS_TOKEN_EXPIRE_MINUTES : Nat := 60 * 24 * 7

/-- The claim set carried by a JWT: the `"sub"` claim (may be absent, as
`payload.get("sub")` can return `None`) and the `"exp"` claim in seconds. -/
structure Claims where
  sub : Option String
  exp : Nat
deriving DecidableEq, Repr

/-- A JWT as seen by python-jose: either a malformed string, or a well-formed
token carrying its claims and signed with some key. -/
inductive JWT where
| malformed
| signed (claims : Claims) (key : String)
deriving DecidableEq, Repr

/-- Source `jwt.encode(claims, key, algorithm=ALGORITHM)`. -/
def jwt_encode (c : Claims) (key : String) : JWT :=
JWT.signed c key

/-- Source `jwt.decode(token, key, algorithms=[ALGORITHM])` at current time `now`:
fails (raises `JWTError`) on a malformed token or a signature under a
different key, and fails (`ExpiredSignatureError`, a `JWTError`) when the
`exp` claim lies in the past. -/
def jwt_decode (tok : JWT) (key : String) (now : Nat) : Except Unit Claims :=
match tok with
| JWT.malformed => Except.error ()
| JWT.signed c k =>
  if k = key then
    if c.exp < now then Except.error () else Except.ok c
  else Except.error ()

/-- Source `create_access_token(data)` (src/main.py:54-58): copy the claims, set
`exp` to now plus `ACCESS_TOKEN_EXPIRE_MINUTES * 60` seconds, sign with the
server key. The caller passes `{"sub": email}`, which carries no `exp`; any
initial `exp` is overwritten. -/
def create_access_token (data : Claims) (now : Nat) (key : String) : JWT :=
jwt_encode { data with exp := now + ACCESS_TOKEN_EXPIRE_MINUTES * 60 } key

/-- Source `get_password_hash` (src/main.py:50-51); bcrypt itself is the abstract
`hashFn`. -/
def get_password_hash (hashFn : String → String) (password : String) : String :=
hashFn password

/-- Source `verify_password` (src/main.py:46-47); bcrypt verification is the
abstract `verifyFn`. -/
def verify_password (verifyFn : String → String → Bool) (plain hashed : String) : Bool :=
verifyFn plain hashed

/-- The `User` schema (src/schemas.py): name, email, password_hash (the
request field that actually carries the plaintext password on register),
optional avatar_url, is_active. -/
structure User where
  name : String
  email : String
  password_hash : String
  avatar_url : Option String
  is_active : Bool
deriving DecidableEq, Repr

/-- An optional string as a stored value (`None` becomes JSON null). -/
def optStr : Option String → Value
| some s => Value.str s
| none => Value.null

/-- Source `user.model_dump()`: the User record as a dict, in field order. -/
def User.model_dump (u : User) : Doc :=
[("name", Value.str u.name),
 ("email", Value.str u.email),
 ("password_hash", Value.str u.password_hash),
 ("avatar_url", optStr u.avatar_url),
 ("is_active", Value.bool u.is_active)]

/-- The `Token` response model (src/main.py:32-34). -/
structure Token where
  access_token : JWT
  token_type : String
deriving DecidableEq, Repr

/-- The `LoginRequest` model (src/main.py:37-39). -/
structure LoginRequest where
  email : String
  password : String
deriving DecidableEq, Repr

/-- An HTTP error raised via `HTTPException(status_code, detail)`. -/
structure HTTPError where
  status : Nat
  detail : String
deriving DecidableEq, Repr

/-- Source `get_user_by_email` (src/main.py:61-63): query the `user` collection
with an equality filter on email, limit 1, return the first hit if any. -/
def get_user_by_email (users : List Doc) (email : String) : Option Doc :=
(get_documents users [("email", Value.str email)] 1).head?

/-- Source `get_current_user` (src/main.py:66-78): decode the bearer token; on any
`JWTError`, on a missing `"sub"` claim, or when the subject email resolves
to no stored user, raise 401; otherwise return the stored user document. -/
def get_current_user (tok : JWT) (users : List Doc) (now : Nat) (key : String) : Except HTTPError Doc :=
match jwt_decode tok key now with
| Except.error _ => Except.error ⟨401, "Could not validate credentials"⟩
| Except.ok payload =>
  match payload.sub with
  | none => Except.error ⟨401, "Could not validate credentials"⟩
  | some email =>
    match get_user_by_email users email with
    | none => Except.error ⟨401, "Could not validate credentials"⟩
    | some u => Except.ok u

/-- Source `register` (src/main.py:118-127): 400 if the email is already stored;
otherwise hash the submitted password, persist the dumped record with the
hash in place of the plaintext, and return a bearer token for the email.
Returns the response together with the resulting `user` collection. -/
def register (hashFn : String → String) (now : Nat) (key : String) (users : List Doc) (user : User) : Except HTTPError Token × List Doc :=
match get_user_by_email users user.email with
| some _ => (Except.error ⟨400, "Email already registered"⟩, users)
| none =>
  let hashed := get_password_hash hashFn user.password_hash
  let data := dset (User.model_dump user) "password_hash" (Value.str hashed)
  let users' := create_document users data
  (Except.ok ⟨create_access_token ⟨some user.email, 0⟩ now key, "bearer"⟩, users')

/-- Source `login` (src/main.py:130-136): one combined check — unknown email or
failed password verification — raising the same 400 error; on success a
bearer token for the stored email. -/
def login (verifyFn : String → String → Bool) (now : Nat) (key : String) (users : List Doc) (payload : LoginRequest) : Except HTTPError Token :=
match get_user_by_email users payload.email with
| none => Except.error ⟨400, "Incorrect email or password"⟩
| some u =>
  if verify_password verifyFn payload.password (dgetStrD u "password_hash" "") then
    Except.ok ⟨create_access_token ⟨some (dgetStrD u "email" ""), 0⟩ now key, "bearer"⟩
  else
    Except.error ⟨400, "Incorrect email or password"⟩

/-- Source `me` (src/main.py:139-142): the dict comprehension dropping the keys in
`["password_hash"]` from the authenticated user's document. -/
def me (current_user : Doc) : Doc :=
current_user.filter (fun kv => !(["password_hash"].contains kv.1))

/-- Whitespace as Python `str.strip` treats it (for the ASCII range). -/
def pyIsSpace (c : Char) : Bool :=
c == ' ' || c == '\t' || c == '\n' || c == '\r' || c == '\x0b' || c == '\x0c'

/-- Python `str.lower()` over the character list (ASCII case mapping). -/
def pyLower (s : String) : String :=
⟨s.data.map Char.toLower⟩

/-- Python `str.strip()`: drop leading and trailing whitespace. -/
def pyStrip (s : String) : String :=
⟨((s.data.dropWhile pyIsSpace).reverse.dropWhile pyIsSpace).reverse⟩

/-- Python `str.replace(" ", "-")`: single-character replacement is a map. -/
def pyReplaceSpaceHyphen (s : String) : String :=
⟨s.data.map (fun c => if c == ' ' then '-' else c)⟩

/-- The `BlogPost` schema (src/schemas.py). -/
structure BlogPost where
  title : String
  slug : String
  excerpt : Option String
  content : String
  author_name : String
  tags : List String
  status : String
  published_at : Option Nat
deriving DecidableEq, Repr

/-- The `BlogCreate` request model (src/main.py:158-164): the client can
supply neither `slug` nor `published_at` — the model has no such fields. -/
structure BlogCreate where
  title : String
  excerpt : Option String
  content : String
  author_name : String
  tags : List String
  status : String
deriving DecidableEq, Repr

/-- Parsing a `BlogCreate` request body: pydantic fills the defaults for
omitted fields — `excerpt = None`, `tags = []`, `status = "published"`. -/
def mkBlogCreate (title : String) (excerpt : Option String) (content : String) (author_name : String) (tags : Option (List String)) (status : Option String) : BlogCreate :=
⟨title, excerpt, content, author_name, tags.getD [], status.getD "published"⟩

/-- Pydantic validation of a required string field: it must be present as a
string. -/
def reqStrField (o : Option Value) : Option String :=
match o with
| some (Value.str s) => some s
| _ => none

/-- Pydantic validation of an optional string field: defaults to `None`
when absent or null. -/
def optStrField (o : Option Value) : Option (Option String) :=
match o with
| none => some Option.none
| some Value.null => some Option.none
| some (Value.str s) => some (Option.some s)
| _ => none

/-- Pydantic validation of the tags field: defaults to the empty list. -/
def tagsField (o : Option Value) : Option (List String) :=
match o with
| none => some ([] : List String)
| some (Value.strlist xs) => some xs
| _ => none

/-- Pydantic validation of the status field: defaults to "published". -/
def statusField (o : Option Value) : Option String :=
match o with
| none => some "published"
| some (Value.str s) => some s
| _ => none

/-- Pydantic validation of an optional timestamp field. -/
def timeField (o : Option Value) : Option (Option Nat) :=
match o with
| none => some Option.none
| some Value.null => some Option.none
| some (Value.time t) => some (Option.some t)
| _ => none

/-- Source `BlogPost(**d)`: pydantic validation of a stored document against the
`BlogPost` schema. Required string fields must be present as strings;
optional fields take their schema default when absent or null; a present
field of the wrong shape fails validation. -/
def blogPostOfDoc (d : Doc) : Option BlogPost := do
  let title ← reqStrField (dget d "title")
  let slug ← reqStrField (dget d "slug")
  let content ← reqStrField (dget d "content")
  let author_name ← reqStrField (dget d "author_name")
  let excerpt ← optStrField (dget d "excerpt")
  let tags ← tagsField (dget d "tags")
  let status ← statusField (dget d "status")
  let published_at ← timeField (dget d "published_at")
  some ⟨title, slug, excerpt, content, author_name, tags, status, published_at⟩

/-- The loop body of `list_posts` (src/main.py:151-154): pop `_id`, validate
each document as a `BlogPost`, appending in order; a validation failure
aborts the request. -/
def buildPosts : List Doc → Option (List BlogPost)
| [] => some []
| d :: rest => do
  let p ← blogPostOfDoc (d.filter (fun kv => !(kv.1 == "_id")))
  let ps ← buildPosts rest
  some (p :: ps)

/-- Source `list_posts` (src/main.py:148-155): query `blogpost` with the equality
filter `{"status": "published"}` and limit 20, then validate each hit. -/
def list_posts (blogposts : List Doc) : Option (List BlogPost) :=
buildPosts (get_documents blogposts [("status", Value.str "published")] 20)

/-- Source `create_post` (src/main.py:167-181): derive the slug from the title
(`lower`, `strip`, then spaces to hyphens), set `published_at` to the
current time exactly when the status is `"published"` and to null
otherwise, persist the document and echo it. Returns the document together
with the resulting `blogpost` collection. -/
def create_post (payload : BlogCreate) (now : Nat) (blogposts : List Doc) : Doc × List Doc :=
let slug := pyReplaceSpaceHyphen (pyStrip (pyLower payload.title))
let doc : Doc :=
  [("title", Value.str payload.title),
   ("slug", Value.str slug),
   ("excerpt", optStr payload.excerpt),
   ("content", Value.str payload.content),
   ("author_name", Value.str payload.author_name),
   ("tags", Value.strlist payload.tags),
   ("status", Value.str payload.status),
   ("published_at", if payload.status == "published" then Value.time now else Value.null)]
(doc, create_document blogposts doc)

/-- The slug formula exactly as the specification words it: the title
lowercased, with every space replaced by a hyphen (no mention of stripping
surrounding whitespace). Kept separate from the source-derived `create_post`
so the two can be compared. -/
def spec_slug (title : String) : String :=
pyReplaceSpaceHyphen (pyLower title)

/-- The slug formula as amended: the title lowercased, stripped of leading
and trailing whitespace, then every space replaced by a hyphen. -/
def spec_slug_amended (title : String) : String :=
pyReplaceSpaceHyphen (pyStrip (pyLower title))

/-- Claim C4: a token issued by `create_access_token` for a subject email,
decoded immediately (same instant, same key), yields exactly that email as
its subject, and the encoded absolute expiry is the issuance time plus 7
days (`ACCESS_TOKEN_EXPIRE_MINUTES * 60 = 7 * 24 * 60 * 60` seconds). -/
theorem create_access_token_roundtrip (data : Claims) (now : Nat) (key : String) (email : String)
    (h : data.sub = some email) :
    create_access_token data now key = JWT.signed ⟨some email, now + 7 * 24 * 60 * 60⟩ key ∧
    jwt_decode (create_access_token data now key) key now =
      Except.ok ⟨some email, now + 7 * 24 * 60 * 60⟩ ∧
    ACCESS_TOKEN_EXPIRE_MINUTES * 60 = 7 * 24 * 60 * 60 := by
  obtain ⟨s, e⟩ := data
  simp only [Claims.mk.injEq] at h
  have h1 : create_access_token ⟨s, e⟩ now key = JWT.signed ⟨some email, now + 7 * 24 * 60 * 60⟩ key := by
    simp [create_access_token, jwt_encode, ACCESS_TOKEN_EXPIRE_MINUTES, h]
  refine ⟨h1, ?_, rfl⟩
  rw [h1]
  simp [jwt_decode]

/-- Witness for C4 at a concrete subject, time and key. -/
theorem create_access_token_roundtrip_witness :
    create_access_token ⟨some "a@x.com", 0⟩ 100 "k" =
      JWT.signed ⟨some "a@x.com", 100 + 7 * 24 * 60 * 60⟩ "k" ∧
    jwt_decode (create_access_token ⟨some "a@x.com", 0⟩ 100 "k") "k" 100 =
      Except.ok ⟨some "a@x.com", 100 + 7 * 24 * 60 * 60⟩ ∧
    ACCESS_TOKEN_EXPIRE_MINUTES * 60 = 7 * 24 * 60 * 60 :=
  create_access_token_roundtrip ⟨some "a@x.com", 0⟩ 100 "k" "a@x.com" rfl

/-- Claim C5, counterexample: the spec's slug formula (lowercase, replace
spaces by hyphens) disagrees with `create_post` on a title with leading
whitespace — the code also strips, the formula does not. -/
theorem create_post_slug_cex :
    dget (create_post (mkBlogCreate " Hello World" none "body" "author" none none) 7 []).1 "slug" =
      some (Value.str "hello-world") ∧
    spec_slug " Hello World" = "-hello-world" ∧
    dget (create_post (mkBlogCreate " Hello World" none "body" "author" none none) 7 []).1 "slug" ≠
      some (Value.str (spec_slug " Hello World")) := by
  refine ⟨rfl, rfl, ?_⟩
  decide

/-- Claim C5, amended: the created post's slug equals the title lowercased,
stripped of leading and trailing whitespace, with every space replaced by a
hyphen; in particular the title "Hello World" yields slug "hello-world". -/
theorem create_post_slug (payload : BlogCreate) (now : Nat) (posts : List Doc) :
    dget (create_post payload now posts).1 "slug" =
      some (Value.str (spec_slug_amended payload.title)) ∧
    spec_slug_amended "Hello World" = "hello-world" :=
  ⟨rfl, rfl⟩

/-- Claim C6: the request status defaults to "published" when omitted; a
post created with status "published" gets `published_at` set to the
creation time, and one created with status "draft" gets it left null. -/
theorem create_post_status_default (payload : BlogCreate) (now : Nat) (posts : List Doc)
    (title content author_name : String) (excerpt : Option String) (tags : Option (List String)) :
    (mkBlogCreate title excerpt content author_name tags none).status = "published" ∧
    (payload.status = "published" →
      dget (create_post payload now posts).1 "published_at" = some (Value.time now)) ∧
    (payload.status = "draft" →
      dget (create_post payload now posts).1 "published_at" = some Value.null) := by
  refine ⟨rfl, ?_, ?_⟩
  · intro h
    simp [create_post, dget, h]
  · intro h
    simp [create_post, dget, h]

/-- Witness for C6 at concrete creation requests. -/
theorem create_post_status_default_witness :
    (mkBlogCreate "T" none "c" "a" none none).status = "published" ∧
    dget (create_post (mkBlogCreate "T" none "c" "a" none (some "published")) 3 []).1 "published_at" =
      some (Value.time 3) ∧
    dget (create_post (mkBlogCreate "T" none "c" "a" none (some "draft")) 3 []).1 "published_at" =
      some Value.null :=
  ⟨(create_post_status_default (mkBlogCreate "T" none "c" "a" none none) 3 [] "T" "c" "a" none none).1,
   (create_post_status_default (mkBlogCreate "T" none "c" "a" none (some "published")) 3 [] "T" "c" "a" none none).2.1 rfl,
   (create_post_status_default (mkBlogCreate "T" none "c" "a" none (some "draft")) 3 [] "T" "c" "a" none none).2.2 rfl⟩

/-- Claim C10: in every document written by the blog-creation endpoint,
`published_at` is the creation time exactly when the status is the string
"published" and null for any other status, and the slug and `published_at`
are derived server-side (the slug from the title alone, `published_at` from
the status and clock alone — `BlogCreate` has no fields for either). -/
theorem create_post_invariant (payload : BlogCreate) (now : Nat) (posts : List Doc) :
    (dget (create_post payload now posts).1 "published_at" = some (Value.time now) ↔
      payload.status = "published") ∧
    (payload.status ≠ "published" →
      dget (create_post payload now posts).1 "published_at" = some Value.null) ∧
    (dget (create_post payload now posts).1 "published_at" ≠ some Value.null ↔
      payload.status = "published") ∧
    dget (create_post payload now posts).1 "slug" =
      some (Value.str (spec_slug_amended payload.title)) := by
  by_cases h : payload.status = "published"
  · refine ⟨?_, ?_, ?_, rfl⟩ <;> simp [create_post, dget, h]
  · refine ⟨?_, ?_, ?_, rfl⟩ <;> simp [create_post, dget, h]

/-- Witness for C10: a status other than "draft" and "published" still
yields a null `published_at`, and a published post gets the timestamp. -/
theorem create_post_invariant_witness :
    dget (create_post (mkBlogCreate "T" none "c" "a" none (some "archived")) 3 []).1 "published_at" =
      some Value.null ∧
    (dget (create_post (mkBlogCreate "T" none "c" "a" none (some "published")) 3 []).1 "published_at" =
      some (Value.time 3) ↔ ("published" : String) = "published") :=
  ⟨(create_post_invariant (mkBlogCreate "T" none "c" "a" none (some "archived")) 3 []).2.1 (by decide),
   (create_post_invariant (mkBlogCreate "T" none "c" "a" none (some "published")) 3 []).1⟩

/-- Claim C1: when the submitted email already matches a stored user,
registration fails with the 400 conflict error and the user collection is
unchanged; when it matches no stored user, the response is a bearer token
signed with the server key whose subject is the new email, and exactly one
document is appended, carrying that email and the hashed password. -/
theorem register_conflict_or_persist (hashFn : String → String) (now : Nat) (key : String)
    (users : List Doc) (user : User) :
    (∀ u, get_user_by_email users user.email = some u →
      register hashFn now key users user =
        (Except.error ⟨400, "Email already registered"⟩, users)) ∧
    (get_user_by_email users user.email = none →
      (register hashFn now key users user).1 =
        Except.ok ⟨JWT.signed ⟨some user.email, now + ACCESS_TOKEN_EXPIRE_MINUTES * 60⟩ key,
                   "bearer"⟩ ∧
      ∃ d, (register hashFn now key users user).2 = users ++ [d] ∧
        dget d "email" = some (Value.str user.email) ∧
        dget d "password_hash" = some (Value.str (hashFn user.password_hash))) := by
  constructor
  · intro u hu
    simp [register, hu]
  · intro h
    refine ⟨by simp [register, h, create_access_token, jwt_encode], ?_⟩
    refine ⟨dset (User.model_dump user) "password_hash"
              (Value.str (hashFn user.password_hash)), ?_, rfl, rfl⟩
    simp [register, h, create_document, get_password_hash]

/-- Witness for C1: registering against a store that already holds the
email conflicts and leaves the store unchanged; against an empty store it
issues the token and appends the hashed record. -/
theorem register_conflict_or_persist_witness :
    register (fun s => String.append "H" s) 0 "k"
        [[("email", Value.str "a@x.com"), ("password_hash", Value.str "old")]]
        ⟨"A", "a@x.com", "pw", none, true⟩ =
      (Except.error ⟨400, "Email already registered"⟩,
       [[("email", Value.str "a@x.com"), ("password_hash", Value.str "old")]]) ∧
    ((register (fun s => String.append "H" s) 0 "k" [] ⟨"A", "a@x.com", "pw", none, true⟩).1 =
      Except.ok ⟨JWT.signed ⟨some "a@x.com", 0 + ACCESS_TOKEN_EXPIRE_MINUTES * 60⟩ "k", "bearer"⟩ ∧
     ∃ d, (register (fun s => String.append "H" s) 0 "k" [] ⟨"A", "a@x.com", "pw", none, true⟩).2 =
        [] ++ [d] ∧
       dget d "email" = some (Value.str "a@x.com") ∧
       dget d "password_hash" = some (Value.str (String.append "H" "pw"))) :=
  ⟨(register_conflict_or_persist (fun s => String.append "H" s) 0 "k"
      [[("email", Value.str "a@x.com"), ("password_hash", Value.str "old")]]
      ⟨"A", "a@x.com", "pw", none, true⟩).1 _ rfl,
   (register_conflict_or_persist (fun s => String.append "H" s) 0 "k" []
      ⟨"A", "a@x.com", "pw", none, true⟩).2 rfl⟩

/-- Claim C2: a login with an email matching no stored user, and a login
whose password fails verification against the stored secret, both produce
the very same 400 error value "Incorrect email or password" — the two
causes are observationally indistinguishable to the client. -/
theorem login_indistinguishable (verifyFn : String → String → Bool) (now : Nat) (key : String)
    (users : List Doc) (payload : LoginRequest) :
    (get_user_by_email users payload.email = none →
      login verifyFn now key users payload =
        Except.error ⟨400, "Incorrect email or password"⟩) ∧
    (∀ u, get_user_by_email users payload.email = some u →
      verifyFn payload.password (dgetStrD u "password_hash" "") = false →
      login verifyFn now key users payload =
        Except.error ⟨400, "Incorrect email or password"⟩) := by
  constructor
  · intro h
    simp [login, h]
  · intro u hu hv
    simp [login, hu, verify_password, hv]

/-- Witness for C2: unknown email on an empty store, and a failing password
against a stored user, both yield the identical error. -/
theorem login_indistinguishable_witness :
    login (fun _ _ => false) 0 "k" [] ⟨"a@x.com", "pw"⟩ =
      Except.error ⟨400, "Incorrect email or password"⟩ ∧
    login (fun _ _ => false) 0 "k"
        [[("email", Value.str "a@x.com"), ("password_hash", Value.str "h")]] ⟨"a@x.com", "pw"⟩ =
      Except.error ⟨400, "Incorrect email or password"⟩ :=
  ⟨(login_indistinguishable (fun _ _ => false) 0 "k" [] ⟨"a@x.com", "pw"⟩).1 rfl,
   (login_indistinguishable (fun _ _ => false) 0 "k"
      [[("email", Value.str "a@x.com"), ("password_hash", Value.str "h")]]
      ⟨"a@x.com", "pw"⟩).2 _ rfl rfl⟩

/-- Claim C3: the protected-route dependency fails with the 401 error when
token decoding fails, when a token is past its expiry (regardless of which
key signed it, in particular the server's own), when the decoded claims
carry no subject, or when the subject matches no stored user; otherwise it
returns exactly the stored user document. -/
theorem get_current_user_spec (tok : JWT) (users : List Doc) (now : Nat) (key : String) :
    (jwt_decode tok key now = Except.error () →
      get_current_user tok users now key =
        Except.error ⟨401, "Could not validate credentials"⟩) ∧
    (∀ c k, c.exp < now →
      get_current_user (JWT.signed c k) users now key =
        Except.error ⟨401, "Could not validate credentials"⟩) ∧
    (∀ c, jwt_decode tok key now = Except.ok c → c.sub = none →
      get_current_user tok users now key =
        Except.error ⟨401, "Could not validate credentials"⟩) ∧
    (∀ c e, jwt_decode tok key now = Except.ok c → c.sub = some e →
      get_user_by_email users e = none →
      get_current_user tok users now key =
        Except.error ⟨401, "Could not validate credentials"⟩) ∧
    (∀ c e u, jwt_decode tok key now = Except.ok c → c.sub = some e →
      get_user_by_email users e = some u →
      get_current_user tok users now key = Except.ok u) := by
  refine ⟨?_, ?_, ?_, ?_, ?_⟩
  · intro h
    simp [get_current_user, h]
  · intro c k hc
    by_cases hk : k = key
    · simp [get_current_user, jwt_decode, hk, hc]
    · simp [get_current_user, jwt_decode, hk]
  · intro c hc hs
    simp [get_current_user, hc, hs]
  · intro c e hc hs hu
    simp [get_current_user, hc, hs, hu]
  · intro c e u hc hs hu
    simp [get_current_user, hc, hs, hu]

/-- Witness for C3: a malformed token, an expired correctly-signed token, a
token without subject, a token whose subject is not stored, and a valid
token for a stored user. -/
theorem get_current_user_spec_witness :
    get_current_user JWT.malformed [] 5 "k" =
      Except.error ⟨401, "Could not validate credentials"⟩ ∧
    get_current_user (JWT.signed ⟨some "a@x.com", 3⟩ "k") [] 5 "k" =
      Except.error ⟨401, "Could not validate credentials"⟩ ∧
    get_current_user (JWT.signed ⟨none, 9⟩ "k") [] 5 "k" =
      Except.error ⟨401, "Could not validate credentials"⟩ ∧
    get_current_user (JWT.signed ⟨some "a@x.com", 9⟩ "k") [] 5 "k" =
      Except.error ⟨401, "Could not validate credentials"⟩ ∧
    get_current_user (JWT.signed ⟨some "a@x.com", 9⟩ "k")
        [[("email", Value.str "a@x.com")]] 5 "k" =
      Except.ok [("email", Value.str "a@x.com")] :=
  ⟨(get_current_user_spec JWT.malformed [] 5 "k").1 rfl,
   (get_current_user_spec JWT.malformed [] 5 "k").2.1 ⟨some "a@x.com", 3⟩ "k" (by decide),
   (get_current_user_spec (JWT.signed ⟨none, 9⟩ "k") [] 5 "k").2.2.1 ⟨none, 9⟩ rfl rfl,
   (get_current_user_spec (JWT.signed ⟨some "a@x.com", 9⟩ "k") [] 5 "k").2.2.2.1
     ⟨some "a@x.com", 9⟩ "a@x.com" rfl rfl rfl,
   (get_current_user_spec (JWT.signed ⟨some "a@x.com", 9⟩ "k")
      [[("email", Value.str "a@x.com")]] 5 "k").2.2.2.2
     ⟨some "a@x.com", 9⟩ "a@x.com" _ rfl rfl rfl⟩

/-- Claim C8: the response of the current-user endpoint holds exactly the
key/value pairs of the stored user document whose key is not
"password_hash", in the stored order, and looking up "password_hash" in the
response finds nothing — the password secret's field is never exposed. -/
theorem me_strips_password_hash (d : Doc) :
    (∀ kv : String × Value, kv ∈ me d ↔ (kv ∈ d ∧ kv.1 ≠ "password_hash")) ∧
    me d = d.filter (fun kv => kv.1 ≠ "password_hash") ∧
    dget (me d) "password_hash" = none := by
  have hpred : ∀ kv : String × Value,
      (!(["password_hash"].contains kv.1)) = true ↔ kv.1 ≠ "password_hash" := by
    intro kv
    simp [List.contains]
  refine ⟨?_, ?_, ?_⟩
  · intro kv
    simp only [me, List.mem_filter, hpred]
  · simp only [me]
    apply List.filter_congr
    intro kv _
    simp [List.contains]
  · have hfind : List.find? (fun kv => kv.1 == "password_hash") (me d) = none := by
      rw [List.find?_eq_none]
      intro kv hkv
      have h1 := ((List.mem_filter).1 hkv).2
      rw [hpred] at h1
      simp [h1]
    simp [dget, hfind]

/-- Witness for C8 at a concrete stored user document. -/
theorem me_strips_password_hash_witness :
    ((("email", Value.str "a") ∈
        me [("email", Value.str "a"), ("password_hash", Value.str "h")]) ↔
      (("email", Value.str "a") ∈
        ([("email", Value.str "a"), ("password_hash", Value.str "h")] : Doc) ∧
       ("email", Value.str "a").1 ≠ "password_hash")) ∧
    dget (me [("email", Value.str "a"), ("password_hash", Value.str "h")]) "password_hash" =
      none :=
  ⟨(me_strips_password_hash [("email", Value.str "a"), ("password_hash", Value.str "h")]).1 _,
   (me_strips_password_hash [("email", Value.str "a"), ("password_hash", Value.str "h")]).2.2⟩

/-- Claim C9: on a successful registration the persisted document has the
same keys as the dumped payload, agrees with the payload on name, email,
avatar_url and is_active, and stores under "password_hash" the hash of the
client-submitted password_hash field; whenever hashing actually changes the
string, the plaintext is not what gets persisted there. -/
theorem register_persists_hashed (hashFn : String → String) (now : Nat) (key : String)
    (users : List Doc) (user : User)
    (h : get_user_by_email users user.email = none) :
    ∃ d, (register hashFn now key users user).2 = users ++ [d] ∧
      d.map Prod.fst = (User.model_dump user).map Prod.fst ∧
      dget d "name" = some (Value.str user.name) ∧
      dget d "email" = some (Value.str user.email) ∧
      dget d "avatar_url" = some (optStr user.avatar_url) ∧
      dget d "is_active" = some (Value.bool user.is_active) ∧
      dget d "password_hash" = some (Value.str (hashFn user.password_hash)) ∧
      (hashFn user.password_hash ≠ user.password_hash →
        dget d "password_hash" ≠ some (Value.str user.password_hash)) := by
  refine ⟨dset (User.model_dump user) "password_hash"
            (Value.str (hashFn user.password_hash)),
          ?_, rfl, rfl, rfl, rfl, rfl, rfl, ?_⟩
  · simp [register, h, create_document, get_password_hash]
  · intro hne hcontra
    have : hashFn user.password_hash = user.password_hash := by
      have h2 : some (Value.str (hashFn user.password_hash)) =
          some (Value.str user.password_hash) := by
        rw [← hcontra]
        rfl
      simpa using h2
    exact hne this

/-- Witness for C9: a concrete registration against an empty store. -/
theorem register_persists_hashed_witness :
    ∃ d, (register (fun s => String.append "H" s) 0 "k" []
            ⟨"A", "a@x.com", "pw", none, true⟩).2 = [] ++ [d] ∧
      d.map Prod.fst =
        (User.model_dump ⟨"A", "a@x.com", "pw", none, true⟩).map Prod.fst ∧
      dget d "name" = some (Value.str "A") ∧
      dget d "email" = some (Value.str "a@x.com") ∧
      dget d "avatar_url" = some (optStr none) ∧
      dget d "is_active" = some (Value.bool true) ∧
      dget d "password_hash" = some (Value.str (String.append "H" "pw")) ∧
      (String.append "H" "pw" ≠ "pw" →
        dget d "password_hash" ≠ some (Value.str "pw")) :=
  register_persists_hashed (fun s => String.append "H" s) 0 "k" []
    ⟨"A", "a@x.com", "pw", none, true⟩ rfl

/-- Dropping the `_id` pairs (the `d.pop("_id", None)` before validation)
does not change `find?` for any other key. -/
theorem find?_filter_id (k : String) (hk : k ≠ "_id") :
    ∀ d : Doc, List.find? (fun kv => kv.1 == k) (d.filter (fun kv => !(kv.1 == "_id"))) =
      List.find? (fun kv => kv.1 == k) d
| [] => rfl
| a :: d => by
  by_cases h1 : a.1 = "_id"
  · have hid : (a.1 == "_id") = true := by simp [h1]
    have hak : (a.1 == k) = false := by
      rw [h1]
      simp
      exact fun hc => hk hc.symm
    simp only [List.filter_cons, List.find?_cons, hid, hak, Bool.not_true, Bool.false_eq_true,
      if_false]
    exact find?_filter_id k hk d
  · have hid : (a.1 == "_id") = false := by simp [h1]
    simp only [List.filter_cons, List.find?_cons, hid, Bool.not_false, if_true]
    by_cases h2 : a.1 = k
    · have hak : (a.1 == k) = true := by simp [h2]
      simp only [List.find?_cons, hak]
    · have hak : (a.1 == k) = false := by simp [h2]
      simp only [List.find?_cons, hak]
      exact find?_filter_id k hk d

/-- Dropping the `_id` pair does not change lookups of any other key. -/
theorem dget_filter_id_ne (d : Doc) (k : String) (hk : k ≠ "_id") :
    dget (d.filter (fun kv => !(kv.1 == "_id"))) k = dget d k := by
  unfold dget
  rw [find?_filter_id k hk d]

/-- Pydantic validation preserves the stored status string: if the document
carries status `s` and validates, the resulting post's status is `s`. -/
theorem blogPostOfDoc_status (d : Doc) (s : String) (p : BlogPost)
    (hst : dget d "status" = some (Value.str s)) (hp : blogPostOfDoc d = some p) :
    p.status = s := by
  simp only [blogPostOfDoc, Option.bind_eq_bind, Option.bind_eq_some, Option.some.injEq] at hp
  obtain ⟨t, ht, sl, hsl, ct, hct, an, han, ex, hex, tg, htg, st, hst2, pa, hpa, hfin⟩ := hp
  subst hfin
  rw [hst] at hst2
  simpa [statusField] using hst2.symm

/-- The validation loop of the listing endpoint: when it succeeds on a
batch of documents that all carry status "published", it produces one post
per document and every produced post has status "published". -/
theorem buildPosts_published : ∀ (docs : List Doc) (ps : List BlogPost),
    (∀ d ∈ docs, dget d "status" = some (Value.str "published")) →
    buildPosts docs = some ps →
    (∀ p ∈ ps, p.status = "published") ∧ ps.length = docs.length := by
  intro docs
  induction docs with
  | nil =>
    intro ps _ hps
    simp only [buildPosts, Option.some.injEq] at hps
    subst hps
    simp
  | cons d rest ih =>
    intro ps hall hps
    simp only [buildPosts, Option.bind_eq_some, Option.some.injEq, bind] at hps
    obtain ⟨p, hp, ps', hps', hfin⟩ := hps
    subst hfin
    have hdstat : dget d "status" = some (Value.str "published") := hall d (by simp)
    have hdstat' : dget (d.filter (fun kv => !(kv.1 == "_id"))) "status" =
        some (Value.str "published") := by
      rw [dget_filter_id_ne d "status" (by decide)]
      exact hdstat
    have hstatus := blogPostOfDoc_status _ _ _ hdstat' hp
    have hrest := ih ps' (fun d' hd' => hall d' (by simp [hd'])) hps'
    constructor
    · intro q hq
      rcases List.mem_cons.1 hq with hq | hq
      · subst hq
        exact hstatus
      · exact hrest.1 q hq
    · simp [hrest.2]

/-- Every document returned by the modelled store query matches each
key/value pair of the equality filter. -/
theorem get_documents_matches (coll : List Doc) (filt : List (String × Value)) (limit : Nat)
    (d : Doc) (hd : d ∈ get_documents coll filt limit) :
    ∀ kv ∈ filt, dget d kv.1 = some kv.2 := by
  intro kv hkv
  have hmem : d ∈ coll.filter (fun d => filt.all (fun kv => dget d kv.1 == some kv.2)) :=
    List.mem_of_mem_take hd
  have hall := (List.mem_filter.1 hmem).2
  rw [List.all_eq_true] at hall
  have := hall kv hkv
  exact eq_of_beq this

/-- Claim C7: assuming the store's query honors its equality-filter and
limit contract (as modelled by `get_documents`), a successful blog listing
returns only posts whose status is "published" and at most 20 posts. -/
theorem list_posts_spec (blogposts : List Doc) (ps : List BlogPost)
    (h : list_posts blogposts = some ps) :
    (∀ p ∈ ps, p.status = "published") ∧ ps.length ≤ 20 := by
  have hall : ∀ d ∈ get_documents blogposts [("status", Value.str "published")] 20,
      dget d "status" = some (Value.str "published") := by
    intro d hd
    exact get_documents_matches blogposts _ 20 d hd ("status", Value.str "published") (by simp)
  have hb := buildPosts_published _ ps hall h
  refine ⟨hb.1, ?_⟩
  rw [hb.2]
  exact (List.length_take_le 20 _).trans (le_refl 20)

/-- Witness for C7: a store with a published post, a draft post and a
malformed-key-free published document; the listing returns only the
published ones, at most 20. -/
theorem list_posts_spec_witness :
    (∀ p ∈ [({ title := "T", slug := "t", excerpt := none, content := "c",
               author_name := "a", tags := [], status := "published",
               published_at := some 5 } : BlogPost)], p.status = "published") ∧
    ([({ title := "T", slug := "t", excerpt := none, content := "c",
         author_name := "a", tags := [], status := "published",
         published_at := some 5 } : BlogPost)]).length ≤ 20 :=
  list_posts_spec
    [[("title", Value.str "T"), ("slug", Value.str "t"), ("content", Value.str "c"),
      ("author_name", Value.str "a"), ("status", Value.str "published"),
      ("published_at", Value.time 5)],
     [("title", Value.str "D"), ("slug", Value.str "d"), ("content", Value.str "c"),
      ("author_name", Value.str "a"), ("status", Value.str "draft")]]
    [{ title := "T", slug := "t", excerpt := none, content := "c",
       author_name := "a", tags := [], status := "published",
       published_at := some 5 }]
    rfl

end Backend
